import Mathlib

/-!
Shallow embedding of the auth-manager token-vault service.

Source layout mirrored here:
- `app/core/exceptions.py`  → `AuthManagerError`, error classes and constructors;
- `app/core/guards.py`      → `raise_if_not_found_guard`, `invariant_guard`, `auth_error_guard`;
- `app/db/repositories/token_vault.py` → `VaultRepository.*` over an explicit `DB` state;
- `app/services/token_vault.py`        → `VaultService.*`;
- `app/services/state_token.py`        → `AcknowledgementKeycloakStateService`;
- `app/api/v1/*.py`         → the endpoint bodies, with the responses of the Keycloak
  gateway supplied as explicit inputs (the IdP is an external collaborator).

Modelling conventions: opaque identifiers and token material (UUIDs, session
state ids, token strings, ciphertexts) are `Nat`; human-readable messages and
machine-readable codes stay `String`; Python exceptions become the `AppErr`
sum propagated through `Except`; randomness (`generate_iv`) becomes an
explicit input of each operation that draws an IV.
-/

/-- Python exception classes of `app/core/exceptions.py`; `base` is
`AuthManagerError` itself. -/
inductive ErrCls
  | base
  | keycloak
  | invalidStateToken
  | tokenNotFound
  | unauthorized
  | tokenNotActive
  | validation
  | invalidRequest
  | database
deriving DecidableEq

/-- Default machine-readable code of each exception class, from the
`ErrorKeys` defaults in `app/core/exceptions.py` / `app/core/errors.py`. -/
def defaultCode : ErrCls → String
  | .base => "error"
  | .keycloak => "keycloak_error"
  | .invalidStateToken => "invalid_ack_state"
  | .tokenNotFound => "token_not_found"
  | .unauthorized => "unauthorized"
  | .tokenNotActive => "token_not_active"
  | .validation => "validation_error"
  | .invalidRequest => "invalid_request"
  | .database => "database_error"

/-- `AuthManagerError` of `app/core/exceptions.py`: class, human message,
machine-readable code, structured details. -/
structure AuthManagerError where
  cls : ErrCls
  message : String
  code : String
  details : List (String × String)
deriving DecidableEq

/-- Constructing `exc(message)` for a class `exc`: the code is the class
default, details empty (as in every constructor of `app/core/exceptions.py`). -/
def mkErr (cls : ErrCls) (message : String) : AuthManagerError :=
  ⟨cls, message, defaultCode cls, []⟩

def KeycloakError (message : String) : AuthManagerError := mkErr .keycloak message

def InvalidStateTokenError (message : String) : AuthManagerError := mkErr .invalidStateToken message

def TokenNotFoundError (message : String) : AuthManagerError := mkErr .tokenNotFound message

def UnauthorizedError (message : String) : AuthManagerError := mkErr .unauthorized message

def TokenNotActiveError (message : String) : AuthManagerError := mkErr .tokenNotActive message

def ValidationError (message : String) : AuthManagerError := mkErr .validation message

def InvalidRequestError (message : String) : AuthManagerError := mkErr .invalidRequest message

def DatabaseError (message : String) : AuthManagerError := mkErr .database message

/-- `DatabaseError(message, code)` with an explicit code, as in
`DatabaseError("No token found for the session/type requested", "entity_not_found")`. -/
def DatabaseErrorWithCode (message code : String) : AuthManagerError :=
  ⟨.database, message, code, []⟩

/-- Exceptions that can cross a Python call boundary in the modelled code:
domain errors (`AuthManagerError` subclasses), SQLAlchemy `NoResultFound` /
`MultipleResultsFound`, a failed `assert`, and a `TypeError` (e.g. encrypting
`None`). -/
inductive AppErr
  | auth (e : AuthManagerError)
  | noResultFound
  | multipleResultsFound
  | assertionError
  | typeError
deriving DecidableEq

/-- The exception class of a result, when it failed with a domain error. -/
def errClass {α : Type} : Except AppErr α → Option ErrCls
  | .error (.auth e) => some e.cls
  | _ => none

/-- `guards.raise_if_not_found_guard`: run the block, turn SQLAlchemy
`NoResultFound` into the supplied domain error; everything else passes. -/
def raise_if_not_found_guard {α : Type} (exc : AuthManagerError)
    (body : Except AppErr α) : Except AppErr α :=
  match body with
  | .error .noResultFound => .error (.auth exc)
  | r => r

/-- `guards.invariant_guard`: if `condition value` holds the invariant is
violated and `exc` is raised; otherwise the block runs. -/
def invariant_guard {α β : Type} (value : α) (condition : α → Bool)
    (exc : AuthManagerError) (body : Except AppErr β) : Except AppErr β :=
  if condition value then .error (.auth exc) else body

/-- `guards.auth_error_guard`: an `AuthManagerError` raised in the block is
re-raised as `exc(error_message)` when a class was supplied, else as a base
`AuthManagerError` with `message = ex.message or error_message`, keeping
`ex.code` and `ex.details`. Non-domain exceptions pass through. -/
def auth_error_guard {α : Type} (exc : Option ErrCls) (error_message : String)
    (body : Except AppErr α) : Except AppErr α :=
  match body with
  | .error (.auth ex) =>
      match exc with
      | some cls => .error (.auth (mkErr cls error_message))
      | none =>
          .error (.auth ⟨.base,
            if ex.message = "" then error_message else ex.message,
            ex.code, ex.details⟩)
  | r => r

/-- `TokenType` of `app/db/models.py`. -/
inductive TokenType
  | offline
  | refresh
deriving DecidableEq

/-- Modelled from the spec: a ciphertext produced by the `EncryptionService`
of `app/services/encryption.py` (absent from `src/`). §4.1 specifies
symmetric encryption reversible only with the identical (key, iv) pair, so a
ciphertext is modelled as the ideal-cipher value determined by exactly those
three components; it is opaque to every consumer except `decrypt`. -/
structure Cipher where
  key : Nat
  iv : Nat
  plaintext : Nat
deriving DecidableEq

/-- A row of the `auth_vault` table (`AuthVault` in `app/db/models.py`),
i.e. the `VaultEntry` domain model of `app/models/domain.py`. -/
structure VaultRow where
  id : Nat
  user_id : Nat
  token_type : TokenType
  encrypted_token : Option Cipher
  iv : Option Nat
  token_hash : Option Nat
  attributes : Option (List (String × Nat))
  session_state_id : Nat
  created_at : Nat
  updated_at : Option Nat
deriving DecidableEq

/-- The persistence state: the `auth_vault` table plus the id generator
(`uuid4` default) and the database clock (`func.now()`). -/
structure DB where
  rows : List VaultRow
  nextId : Nat
  now : Nat
deriving DecidableEq

/-- SQL `WHERE token_type = :t` added only `if token_type:` (the enum members
`"offline"`/`"refresh"` are truthy, so `some t` always filters). -/
def matchesType (token_type : Option TokenType) (r : VaultRow) : Bool :=
  match token_type with
  | none => true
  | some t => r.token_type == t

/-- `VaultRepository.create`: insert a new row; `id` from the generator,
`created_at` from the database clock, `updated_at` NULL. -/
def VaultRepository.create (db : DB) (user_id : Nat) (token_type : TokenType)
    (encrypted_token : Cipher) (iv token_hash : Nat) (session_state_id : Nat)
    (attributes : Option (List (String × Nat))) : VaultRow × DB :=
  let entry : VaultRow :=
    ⟨db.nextId, user_id, token_type, some encrypted_token, some iv,
      some token_hash, attributes, session_state_id, db.now, none⟩
  (entry, ⟨db.rows ++ [entry], db.nextId + 1, db.now + 1⟩)

/-- `VaultRepository.retrieve`: `scalar_one()` over `WHERE id = :id` —
`NoResultFound` on zero rows, `MultipleResultsFound` on several. -/
def VaultRepository.retrieve (db : DB) (token_id : Nat) : Except AppErr VaultRow :=
  match db.rows.filter (fun r => r.id == token_id) with
  | [] => .error .noResultFound
  | [r] => .ok r
  | _ => .error .multipleResultsFound

/-- `VaultRepository.retrieve_by_user_id`: `WHERE user_id = :u` (plus the
optional type filter), `ORDER BY created_at DESC`, then
`scalar_one_or_none()`. The ordering has no observable effect because
`scalar_one_or_none` returns the sole row when exactly one matches, `None`
when none does, and raises `MultipleResultsFound` when several do. -/
def VaultRepository.retrieve_by_user_id (db : DB) (user_id : Nat)
    (token_type : Option TokenType) : Except AppErr (Option VaultRow) :=
  match db.rows.filter (fun r => r.user_id == user_id && matchesType token_type r) with
  | [] => .ok none
  | [r] => .ok (some r)
  | _ => .error .multipleResultsFound

/-- `VaultRepository.retrieve_or_raise_by_session_state_id`: `scalar_one()`
over `WHERE session_state_id = :s` plus the optional type filter. -/
def VaultRepository.retrieve_or_raise_by_session_state_id (db : DB)
    (session_state_id : Nat) (token_type : Option TokenType) :
    Except AppErr VaultRow :=
  match db.rows.filter
      (fun r => r.session_state_id == session_state_id && matchesType token_type r) with
  | [] => .error .noResultFound
  | [r] => .ok r
  | _ => .error .multipleResultsFound

/-- `VaultRepository.retrieve_by_session_state_id`: as above but
`scalar_one_or_none()`. -/
def VaultRepository.retrieve_by_session_state_id (db : DB)
    (session_state_id : Nat) (token_type : Option TokenType) :
    Except AppErr (Option VaultRow) :=
  match db.rows.filter
      (fun r => r.session_state_id == session_state_id && matchesType token_type r) with
  | [] => .ok none
  | [r] => .ok (some r)
  | _ => .error .multipleResultsFound

/-- `VaultRepository.get_all_by_session_state_id`: all rows with the session
state id, excluding `exclude_id` when given (a `UUID` argument is always
truthy) and filtering by type when given. -/
def VaultRepository.get_all_by_session_state_id (db : DB) (session_state_id : Nat)
    (exclude_id : Option Nat) (token_type : Option TokenType) : List VaultRow :=
  let base := db.rows.filter (fun r => r.session_state_id == session_state_id)
  let excluded :=
    match exclude_id with
    | none => base
    | some x => base.filter (fun r => !(r.id == x))
  excluded.filter (fun r => matchesType token_type r)

/-- The `.values(...)` clause of the UPDATE in
`VaultRepository.upsert_refresh_token`; `updated_at` is set by the
`onupdate=func.now()` column default. -/
def VaultRepository.updateValues (encrypted_token : Cipher) (iv token_hash : Nat)
    (session_state_id : Nat) (attributes : Option (List (String × Nat)))
    (now : Nat) (r : VaultRow) : VaultRow :=
  { r with
    encrypted_token := some encrypted_token,
    iv := some iv,
    token_hash := some token_hash,
    session_state_id := session_state_id,
    attributes := attributes,
    updated_at := some now }

/-- `VaultRepository.upsert_refresh_token`: look up the REFRESH row of the user;
update it in place when it exists, else insert a fresh row; returns the
persistent id. -/
def VaultRepository.upsert_refresh_token (db : DB) (user_id : Nat)
    (encrypted_token : Cipher) (iv token_hash : Nat) (session_state_id : Nat)
    (attributes : Option (List (String × Nat))) : Except AppErr (Nat × DB) :=
  match VaultRepository.retrieve_by_user_id db user_id (some TokenType.refresh) with
  | .error e => .error e
  | .ok (some existing) =>
      .ok (existing.id,
        ⟨db.rows.map (fun r =>
            if r.id == existing.id then
              VaultRepository.updateValues encrypted_token iv token_hash
                session_state_id attributes db.now r
            else r),
          db.nextId, db.now + 1⟩)
  | .ok none =>
      let created := VaultRepository.create db user_id TokenType.refresh
        encrypted_token iv token_hash session_state_id attributes
      .ok (created.1.id, created.2)

/-- `VaultRepository.delete`: DELETE by id; true iff at least one row went. -/
def VaultRepository.delete (db : DB) (id : Nat) : Bool × DB :=
  (db.rows.any (fun r => r.id == id),
    { db with rows := db.rows.filter (fun r => !(r.id == id)) })

/-- Modelled from the spec: `EncryptionService` lives in
`app/services/encryption.py`, which is absent from `src/`; §4.1 of the spec
specifies it as symmetric `encrypt`/`decrypt`/`hash` over token material with
`decrypt(encrypt(t, iv), iv) = t` under the same key and failure on any
key/iv/ciphertext mismatch. Token material being opaque here, the cipher is
the ideal one over the `Cipher` type, and the hash is a deterministic
injective digest. `generate_iv()` (fresh randomness) becomes an
explicit `iv` input of each operation that encrypts. -/
structure EncryptionService where
  key : Nat
deriving DecidableEq

/-- Modelled from the spec: `encrypt(plaintext, iv)` → ciphertext,
reversible only with the identical (key, iv) pair. -/
def EncryptionService.encrypt_token (s : EncryptionService) (token iv : Nat) : Cipher :=
  ⟨s.key, iv, token⟩

/-- Modelled from the spec: `decrypt(ciphertext, iv)` → plaintext, failing
with a decryption error when the key or iv does not match. -/
def EncryptionService.decrypt_token (s : EncryptionService) (encrypted_token : Cipher)
    (iv : Nat) : Except AppErr Nat :=
  if encrypted_token.key = s.key ∧ encrypted_token.iv = iv then
    .ok encrypted_token.plaintext
  else
    .error (.auth (ValidationError "Decryption failed"))

/-- Modelled from the spec: `hash(plaintext)` → deterministic one-way digest
used for equality checks only. -/
def EncryptionService.hash_token (s : EncryptionService) (token : Nat) : Nat :=
  Nat.pair token s.key

/-- `VaultService` of `app/services/token_vault.py`: repository (the `DB`
state threaded explicitly) plus encryption. -/
structure VaultService where
  encryption : EncryptionService
deriving DecidableEq

/-- `VaultService.store`: generate an IV (here: the `iv` input), encrypt and
hash, insert via `VaultRepository.create`. -/
def VaultService.store (svc : VaultService) (db : DB) (user_id token : Nat)
    (token_type : TokenType) (session_state_id : Nat)
    (attributes : Option (List (String × Nat))) (iv : Nat) : VaultRow × DB :=
  VaultRepository.create db user_id token_type
    (svc.encryption.encrypt_token token iv) iv
    (svc.encryption.hash_token token) session_state_id attributes

/-- `VaultService.retrieve_and_decrypt`: `raise_if_not_found_guard` around
the repository lookup, then `invariant_guard` on the token material, then
decrypt. The inner `match` arms for absent material mirror the Python
`assert`s, unreachable under the guard. -/
def VaultService.retrieve_and_decrypt (svc : VaultService) (db : DB)
    (token_id : Nat) : Except AppErr (VaultRow × Nat) :=
  match raise_if_not_found_guard (TokenNotFoundError "Token not found")
      (VaultRepository.retrieve db token_id) with
  | .error e => .error e
  | .ok entry =>
      invariant_guard entry
        (fun e => e.encrypted_token.isNone || e.iv.isNone)
        (TokenNotFoundError "Token has no encrypted data")
        (match entry.encrypted_token, entry.iv with
         | some ct, some iv =>
             match svc.encryption.decrypt_token ct iv with
             | .error e => .error e
             | .ok decrypted_token => .ok (entry, decrypted_token)
         | _, _ => .error .assertionError)

/-- `VaultService.upsert_refresh_token`: encrypt and hash under a fresh IV
(the `iv` input), delegate to the repository upsert; returns the persistent
id (and the next state). -/
def VaultService.upsert_refresh_token (svc : VaultService) (db : DB)
    (user_id token session_state_id : Nat)
    (attributes : Option (List (String × Nat))) (iv : Nat) :
    Except AppErr (Nat × DB) :=
  VaultRepository.upsert_refresh_token db user_id
    (svc.encryption.encrypt_token token iv) iv
    (svc.encryption.hash_token token) session_state_id attributes

/-- `VaultService.retrieve_or_raise_by_session_state_id`:
`raise_if_not_found_guard` with `DatabaseError(..., "entity_not_found")`
around the `scalar_one()` lookup, then the material `invariant_guard` with
`TokenNotFoundError`, then decrypt. -/
def VaultService.retrieve_or_raise_by_session_state_id (svc : VaultService)
    (db : DB) (session_state_id : Nat) (token_type : Option TokenType) :
    Except AppErr (VaultRow × Nat) :=
  match raise_if_not_found_guard
      (DatabaseErrorWithCode "No token found for the session/type requested" "entity_not_found")
      (VaultRepository.retrieve_or_raise_by_session_state_id db session_state_id token_type) with
  | .error e => .error e
  | .ok entry =>
      invariant_guard entry
        (fun e => e.encrypted_token.isNone || e.iv.isNone)
        (TokenNotFoundError "Token has no encrypted data")
        (match entry.encrypted_token, entry.iv with
         | some ct, some iv =>
             match svc.encryption.decrypt_token ct iv with
             | .error e => .error e
             | .ok decrypted_token => .ok (entry, decrypted_token)
         | _, _ => .error .assertionError)

/-- `VaultService.retrieve_by_session_state_id`: optional lookup; on a hit it
`assert`s the token material (an `AssertionError` when absent — there is no
guard here) and decrypts; `None` (here `.ok none`) on a miss. -/
def VaultService.retrieve_by_session_state_id (svc : VaultService) (db : DB)
    (session_state_id : Nat) (token_type : Option TokenType) :
    Except AppErr (Option (VaultRow × Nat)) :=
  match VaultRepository.retrieve_by_session_state_id db session_state_id token_type with
  | .error e => .error e
  | .ok none => .ok none
  | .ok (some entry) =>
      match entry.encrypted_token, entry.iv with
      | some ct, some iv =>
          match svc.encryption.decrypt_token ct iv with
          | .error e => .error e
          | .ok decrypted_token => .ok (some (entry, decrypted_token))
      | _, _ => .error .assertionError

/-- `VaultService.get_by_user_id`: `raise_if_not_found_guard(DatabaseError(...))`
around `retrieve_by_user_id` followed by `assert entry` — the lookup returns
`None` (it never raises `NoResultFound`), so an absent row trips the bare
`assert`, which the guard does not catch. A hit goes through the material
`invariant_guard` with `ValidationError` and is decrypted. -/
def VaultService.get_by_user_id (svc : VaultService) (db : DB) (user_id : Nat)
    (token_type : Option TokenType) : Except AppErr (VaultRow × Nat) :=
  match raise_if_not_found_guard (DatabaseError "No Token found for the user/type requested")
      (match VaultRepository.retrieve_by_user_id db user_id token_type with
       | .error e => .error e
       | .ok (some entry) => .ok entry
       | .ok none => .error .assertionError) with
  | .error e => .error e
  | .ok entry =>
      invariant_guard entry
        (fun e => e.encrypted_token.isNone || e.iv.isNone)
        (ValidationError "Token has no encrypted data")
        (match entry.encrypted_token, entry.iv with
         | some ct, some iv =>
             match svc.encryption.decrypt_token ct iv with
             | .error e => .error e
             | .ok decrypted_token => .ok (entry, decrypted_token)
         | _, _ => .error .assertionError)

/-- `VaultService.delete_token`: delegate to `VaultRepository.delete`. -/
def VaultService.delete_token (_svc : VaultService) (db : DB) (token_id : Nat) :
    Bool × DB :=
  VaultRepository.delete db token_id

/-- `VaultService.check_shared_token`: `len(get_all_by_session_state_id(...)) > 0`,
the repository called with `exclude_id` and the optional type filter. -/
def VaultService.check_shared_token (_svc : VaultService) (db : DB)
    (session_state_id exclude_id : Nat) (token_type : Option TokenType) : Bool :=
  decide (0 < (VaultRepository.get_all_by_session_state_id db session_state_id
    (some exclude_id) token_type).length)

/-- The decoded JWT claim set built in `make_ack_state`; `user_id` and
`session_state_id` are optional so that a token missing a required claim is
representable (`payload["user_id"]` then raises `KeyError`). -/
structure JwtPayload where
  user_id : Option Nat
  session_state_id : Option Nat
  exp : Option Nat
  iat : Option Nat
deriving DecidableEq

/-- A compact JWS under the ideal-MAC model of HMAC-SHA256: the signature of
a payload under a secret is represented by the (secret, payload) pair itself,
so verification succeeds exactly for the signing secret and the unmutated
payload (collisions of the real MAC are out of model). -/
structure Jwt where
  payload : JwtPayload
  alg : String
  sig : Nat × JwtPayload
deriving DecidableEq

/-- `jwt.encode(payload, key, algorithm="HS256")`, ideal-MAC signature. -/
def jwtEncode (payload : JwtPayload) (key : Nat) : Jwt :=
  ⟨payload, "HS256", (key, payload)⟩

/-- `AckStateTokenPayload` of `app/models/request.py` as consumed by
`parse_ack_state` (only the two identifying claims). -/
structure AckStateTokenPayload where
  user_id : Nat
  session_state_id : Nat
deriving DecidableEq

/-- `AcknowledgementKeycloakStateService` of `app/services/state_token.py`. -/
structure AcknowledgementKeycloakStateService where
  secret_key : Nat
deriving DecidableEq

/-- `make_ack_state(user_id, session_state_id, expires_in=600)`: sign
`{user_id, session_state_id, exp = now + expires_in, iat = now}` with the
service secret under HS256; `now` is the wall clock at signing time. -/
def AcknowledgementKeycloakStateService.make_ack_state
    (svc : AcknowledgementKeycloakStateService) (user_id session_state_id : Nat)
    (expires_in : Nat) (now : Nat) : Jwt :=
  jwtEncode ⟨some user_id, some session_state_id, some (now + expires_in), some now⟩
    svc.secret_key

/-- `parse_ack_state(token)`: `jwt.decode(..., algorithms=["HS256"],
options={"verify_exp": False})` — the signature and algorithm are checked,
expiry deliberately is not (`parse_time`, the wall clock at parsing time, is
ignored exactly as PyJWT ignores `exp` under `verify_exp=False`); a bad
signature raises `InvalidTokenError`, a missing claim raises `KeyError`, and
both are re-raised as `InvalidStateTokenError` (messages abridged from the
interpolated `str(e)`). -/
def AcknowledgementKeycloakStateService.parse_ack_state
    (svc : AcknowledgementKeycloakStateService) (token : Jwt) (parse_time : Nat) :
    Except AppErr AckStateTokenPayload :=
  let _ := parse_time
  if token.alg = "HS256" ∧ token.sig = (svc.secret_key, token.payload) then
    match token.payload.user_id with
    | none => .error (.auth (InvalidStateTokenError "Missing required field in state token: user_id"))
    | some u =>
        match token.payload.session_state_id with
        | none => .error (.auth (InvalidStateTokenError "Missing required field in state token: session_state_id"))
        | some s => .ok ⟨u, s⟩
  else
    .error (.auth (InvalidStateTokenError "Invalid state token: signature verification failed"))

/-- `TokenIntrospection` of `app/models/domain.py`, restricted to the claims
the modelled code reads. -/
structure TokenIntrospection where
  active : Bool
  sub : Option Nat
  sid : Option Nat
deriving DecidableEq

/-- `ValidatedToken` of `app/models/domain.py`. -/
structure ValidatedToken where
  user_id : Nat
  session_state_id : Nat
  access_token : Nat
deriving DecidableEq

/-- `ValidationResponse` of `app/models/response.py`. -/
structure ValidationResponse where
  valid : Bool
deriving DecidableEq

/-- The `validate_token` endpoint of `app/api/v1/validate_token.py`, from the
introspection result onward (bearer extraction and the Keycloak call itself
are the HTTP/IdP boundary): a single `invariant_guard` on `active`, then
`Ok(ValidationResponse(valid=True))`. -/
def validate_token (introspection_result : TokenIntrospection) :
    Except AppErr ValidationResponse :=
  invariant_guard introspection_result
    (fun e => !e.active)
    (TokenNotActiveError "Token is not active")
    (.ok ⟨true⟩)

/-- `get_validated_token` of `app/core/security.py`, from the introspection
result onward: guards on `active`, `sub`, `sid` in that order, then the
`ValidatedToken`. The `match` arms for claims the guards just proved present
mirror the Python `assert`s. -/
def get_validated_token (bearer_token : Nat) (token_info : TokenIntrospection) :
    Except AppErr ValidatedToken :=
  invariant_guard token_info
    (fun e => !e.active)
    (TokenNotActiveError "Token is not active")
    (invariant_guard token_info
      (fun e => e.sub.isNone)
      (InvalidRequestError "Token missing required claim: sub")
      (match token_info.sub with
       | none => .error .assertionError
       | some user_id =>
          invariant_guard token_info
            (fun e => e.sid.isNone)
            (InvalidRequestError "Token missing required claim: session_state")
            (match token_info.sid with
             | none => .error .assertionError
             | some sid => .ok ⟨user_id, sid, bearer_token⟩)))

/-- `KeycloakTokenResponse` of `app/models/domain.py`, restricted to the
fields the modelled endpoints read. -/
structure KeycloakTokenResponse where
  access_token : Nat
  expires_in : Nat
  refresh_token : Option Nat
  session_state : Nat
deriving DecidableEq

/-- `OfflineTokenRevocationResponse` of `app/models/response.py`. -/
structure OfflineTokenRevocationResponse where
  message : String
  persistent_token_id : Nat
  token_deleted : Bool
  session_revoked : Bool
  had_shared_session : Bool
deriving DecidableEq

/-- Observable side effects of the revocation endpoint, in order. -/
inductive Event
  | deleteRow (id : Nat)
  | revokeSession (session_state_id : Nat)
deriving DecidableEq

/-- The `revoke_offline_token` endpoint of `app/api/v1/offline_token_id.py`:
look up and decrypt the entry (`auth_error_guard(TokenNotFoundError, ...)`),
delete the vault row (`auth_error_guard(DatabaseError, ...)`; the delete
itself cannot raise in this model), then — inside
`auth_error_guard(KeycloakError, ...)` — run the shared-session census on the
post-delete state and call `keycloak.revoke_session` only when no other
OFFLINE entry still references the session. `revoke_ok` is the outcome of
that upstream call when made. Returns the response (or the propagated
error), the post-state, and the ordered event trace. -/
def revoke_offline_token (vault : VaultService) (db : DB) (id : Nat)
    (revoke_ok : Bool) :
    Except AppErr OfflineTokenRevocationResponse × DB × List Event :=
  match auth_error_guard (some .tokenNotFound) "No offline token was found"
      (vault.retrieve_and_decrypt db id) with
  | .error e => (.error e, db, [])
  | .ok (entry, _) =>
      let deleted_db := VaultService.delete_token vault db entry.id
      let deleted := deleted_db.1
      let db1 := deleted_db.2
      let trace1 := [Event.deleteRow entry.id]
      let had_shared_session := VaultService.check_shared_token vault db1
        entry.session_state_id entry.id (some TokenType.offline)
      if had_shared_session then
        (.ok ⟨"Offline token revoked successfully", entry.id, deleted, false, true⟩,
          db1, trace1)
      else
        let trace2 := trace1 ++ [Event.revokeSession entry.session_state_id]
        if revoke_ok then
          (.ok ⟨"Offline token revoked successfully", entry.id, deleted, true, false⟩,
            db1, trace2)
        else
          (.error (.auth (KeycloakError
              ("Revoke session " ++ toString entry.session_state_id ++
               " for token " ++ toString entry.id ++ " failed"))),
            db1, trace2)

/-- The `make_new_refresh_token_id` endpoint of `app/api/v1/refresh_token_id.py`:
fetch and decrypt the REFRESH entry of the session (`auth_error_guard(None, ...)`),
re-check its material (`invariant_guard` with `TokenNotFoundError`), call
`keycloak.refresh_access_token` (its outcome is the `kc_refresh` input), then
`invariant_guard(new_token_response, lambda e: e.refresh_token is not None,
KeycloakError("No refresh token was generated"))` around the upsert — note
the condition fires when a rotated refresh token IS present; when it is
absent the upsert is reached with `token=None` and encrypting `None` raises
`TypeError`. Returns the persistent id and the next state. -/
def make_new_refresh_token_id (vault : VaultService) (db : DB)
    (user_id session_id : Nat) (kc_refresh : Except AppErr KeycloakTokenResponse)
    (iv : Nat) : Except AppErr (Nat × DB) :=
  match auth_error_guard none "No refresh token was found with this session"
      (vault.retrieve_or_raise_by_session_state_id db session_id
        (some TokenType.refresh)) with
  | .error e => .error e
  | .ok (entry, _decrypted_token) =>
      invariant_guard entry
        (fun e => e.encrypted_token.isNone || e.iv.isNone)
        (TokenNotFoundError "No encrypted refresh token was found")
        (match kc_refresh with
         | .error e => .error e
         | .ok new_token_response =>
            invariant_guard new_token_response
              (fun e => e.refresh_token.isSome)
              (KeycloakError "No refresh token was generated")
              (match new_token_response.refresh_token with
               | some token =>
                  VaultService.upsert_refresh_token vault db user_id token
                    new_token_response.session_state
                    (some [("session_id", session_id)]) iv
               | none => .error .typeError))

/-- One successful-call record for `VaultService.upsert_refresh_token`: its
arguments plus the IV drawn by `generate_iv()` inside the call. -/
structure UpsertCall where
  token : Nat
  session_state_id : Nat
  attributes : Option (List (String × Nat))
  iv : Nat
deriving DecidableEq

/-- A finite sequence of sequential `upsert_refresh_token` calls for one
user, failing as soon as one call fails. -/
def runUpserts (svc : VaultService) (user_id : Nat) : DB → List UpsertCall → Except AppErr DB
  | db, [] => .ok db
  | db, c :: cs =>
      match VaultService.upsert_refresh_token svc db user_id c.token
          c.session_state_id c.attributes c.iv with
      | .error e => .error e
      | .ok idDb => runUpserts svc user_id idDb.2 cs

/-- Concrete service fixture: encryption key 0. -/
def svcW : VaultService := ⟨⟨0⟩⟩

/-- Empty vault. -/
def emptyDB : DB := ⟨[], 0, 0⟩

/-- A REFRESH row for user 1, session 9, holding token 5 encrypted under
key 0 with iv 3. -/
def rowRefresh9 : VaultRow :=
  ⟨0, 1, .refresh, some ⟨0, 3, 5⟩, some 3,
    some (Nat.pair 5 0), none, 9, 0, none⟩

/-- Vault holding only `rowRefresh9`. -/
def dbRefresh9 : DB := ⟨[rowRefresh9], 1, 1⟩

/-- An OFFLINE row for user 1, session 9, id 0, token 5 under iv 3. -/
def rowOffline9 : VaultRow :=
  ⟨0, 1, .offline, some ⟨0, 3, 5⟩, some 3,
    some (Nat.pair 5 0), none, 9, 0, none⟩

/-- A second OFFLINE row sharing session 9: user 1, id 1, token 6 under iv 4. -/
def rowOffline9b : VaultRow :=
  ⟨1, 1, .offline, some ⟨0, 4, 6⟩, some 4,
    some (Nat.pair 6 0), none, 9, 1, none⟩

/-- Vault holding only `rowOffline9`. -/
def dbOffline9 : DB := ⟨[rowOffline9], 1, 1⟩

/-- Vault holding two OFFLINE rows that share session 9. -/
def dbSharedOffline9 : DB := ⟨[rowOffline9, rowOffline9b], 2, 2⟩

/-- Vault with two rows for user 7 (one OFFLINE, one REFRESH). -/
def dbTwoRows7 : DB :=
  ⟨[⟨0, 7, .offline, some ⟨0, 3, 5⟩, some 3,
      some (Nat.pair 5 0), none, 9, 0, none⟩,
    ⟨1, 7, .refresh, some ⟨0, 4, 6⟩, some 4,
      some (Nat.pair 6 0), none, 9, 1, none⟩], 2, 2⟩

/-- C9 (counterexample): the claim says the no-type branch of
`auth_error_guard` overrides the human-readable message with the supplied
message of the block; in the code (`message=ex.message or error_message`) a
non-empty original message is preserved, so at this concrete input the
re-raised message is the original one, not the supplied one. -/
theorem C9_counterexample_message_preserved :
    (auth_error_guard none "wrapped message"
        (.error (.auth ⟨.keycloak, "original message", "keycloak_error", []⟩)) :
        Except AppErr Nat)
      = .error (.auth ⟨.base, "original message", "keycloak_error", []⟩) ∧
    "original message" ≠ "wrapped message" := by
  exact ⟨rfl, by decide⟩

/-- C9 (amended): with no caller-specified type, `auth_error_guard` re-raises
the generic domain error keeping the original code and details, with the
original message when it is non-empty and the supplied message only as a
fallback for an empty one; with a caller-specified type it re-raises that
type with the fixed supplied message and the default code of that type; successes
and non-domain exceptions pass through unchanged. -/
theorem C9_auth_error_guard_rewrap (ex : AuthManagerError) (error_message : String)
    (cls : ErrCls) (v : Nat) :
    (auth_error_guard none error_message (.error (.auth ex)) : Except AppErr Nat)
      = .error (.auth ⟨.base,
          if ex.message = "" then error_message else ex.message, ex.code, ex.details⟩) ∧
    (auth_error_guard (some cls) error_message (.error (.auth ex)) : Except AppErr Nat)
      = .error (.auth ⟨cls, error_message, defaultCode cls, []⟩) ∧
    (auth_error_guard none error_message (.ok v) : Except AppErr Nat) = .ok v ∧
    (auth_error_guard (some cls) error_message (.error AppErr.assertionError) :
        Except AppErr Nat)
      = .error AppErr.assertionError :=
  ⟨rfl, rfl, rfl, rfl⟩

/-- C3 (counterexample): the `validate_token` endpoint does not require the
subject or session claim — an introspection result that is active but
carries neither claim still yields `valid=True`, so the claim that validity
requires both claims (and that their absence yields the specific missing-claim
error) is false of the validate operation. -/
theorem C3_counterexample_claims_not_checked :
    ¬ (∀ i : TokenIntrospection,
        validate_token i = .ok ⟨true⟩ → i.sub.isSome ∧ i.sid.isSome) := by
  intro h
  have hc := h ⟨true, none, none⟩ rfl
  simp at hc

/-- C3 (amended): `validate_token` returns `valid=True` exactly when
introspection reports `active=True`, failing with the specific inactive-token
error otherwise; the subject- and session-claim checks of the claim belong to
the bearer-validation dependency `get_validated_token`, where each single
failing condition yields its specific error (inactive token, missing `sub`,
missing `session_state`), never a generic failure. -/
theorem C3_validation_gate (i : TokenIntrospection) (bearer_token : Nat) :
    validate_token i
      = (if i.active then .ok ⟨true⟩
         else .error (.auth (TokenNotActiveError "Token is not active"))) ∧
    get_validated_token bearer_token i
      = (if i.active then
           match i.sub with
           | none => .error (.auth (InvalidRequestError "Token missing required claim: sub"))
           | some user_id =>
              match i.sid with
              | none => .error (.auth (InvalidRequestError "Token missing required claim: session_state"))
              | some sid => .ok ⟨user_id, sid, bearer_token⟩
         else .error (.auth (TokenNotActiveError "Token is not active"))) := by
  obtain ⟨a, sub, sid⟩ := i
  cases a <;> cases sub <;> cases sid <;> exact ⟨rfl, rfl⟩

/-- C4 (code bug): when the refresh grant at the provider succeeds and returns a
rotated refresh token (`refresh_token = some 42`), the endpoint raises
`KeycloakError("No refresh token was generated")` instead of persisting the
token — the `invariant_guard` condition in `make_new_refresh_token_id` is
`e.refresh_token is not None`, inverted relative to both its own error
message and the parallel offline endpoint (`is None`). -/
theorem C4_rotated_token_rejected :
    make_new_refresh_token_id svcW dbRefresh9 1 9 (.ok ⟨100, 60, some 42, 9⟩) 4
      = .error (.auth (KeycloakError "No refresh token was generated")) := rfl

/-- C7 (code bug): `get_by_user_id` on simple absence does not return the
documented `None` — the bare `assert entry` after the optional lookup raises
an `AssertionError` the surrounding guard (which only catches
`NoResultFound`) does not intercept; `retrieve_by_session_state_id` does
return the no-match result on absence. -/
theorem C7_absence_behavior :
    VaultService.get_by_user_id svcW emptyDB 1 none = .error AppErr.assertionError ∧
    VaultService.retrieve_by_session_state_id svcW emptyDB 1 none = .ok none :=
  ⟨rfl, rfl⟩

/-- C8 (code bug): with two rows for user 7 and no type filter,
`retrieve_by_user_id` raises SQLAlchemy `MultipleResultsFound`
(`scalar_one_or_none` demands at most one row) instead of returning the
most-recent row that its own `ORDER BY created_at DESC` was written to
select. -/
theorem C8_multiple_rows_raise :
    VaultRepository.retrieve_by_user_id dbTwoRows7 7 none
      = .error AppErr.multipleResultsFound := rfl

/-- C5 (counterexample): on absence the session lookup fails with the
`DatabaseError` class under the ad hoc code `"entity_not_found"` — not with
the NotFound kind of the taxonomy (`TokenNotFoundError` / `token_not_found`). -/
theorem C5_counterexample_wrong_error_kind :
    VaultService.retrieve_or_raise_by_session_state_id svcW emptyDB 5 none
      = .error (.auth ⟨.database, "No token found for the session/type requested",
          "entity_not_found", []⟩) ∧
    ErrCls.database ≠ ErrCls.tokenNotFound ∧ "entity_not_found" ≠ "token_not_found" :=
  ⟨rfl, by decide, by decide⟩

/-- C5 (amended): when no vault row matches the session (and optional type),
`retrieve_or_raise_by_session_state_id` fails with `DatabaseError` carrying
code `"entity_not_found"` (rather than the NotFound kind the claim named);
when exactly one row matches and it holds token material encrypted under the
service key, the call returns that entry with the decrypted plaintext. -/
theorem C5_retrieve_or_raise_behavior (svc : VaultService) (db : DB)
    (session_state_id : Nat) (token_type : Option TokenType) :
    (db.rows.filter (fun r => r.session_state_id == session_state_id
        && matchesType token_type r) = [] →
      svc.retrieve_or_raise_by_session_state_id db session_state_id token_type
        = .error (.auth (DatabaseErrorWithCode
            "No token found for the session/type requested" "entity_not_found"))) ∧
    (∀ (e : VaultRow) (token iv : Nat),
      db.rows.filter (fun r => r.session_state_id == session_state_id
          && matchesType token_type r) = [e] →
      e.encrypted_token = some (svc.encryption.encrypt_token token iv) →
      e.iv = some iv →
      svc.retrieve_or_raise_by_session_state_id db session_state_id token_type
        = .ok (e, token)) := by
  constructor
  · intro h
    unfold VaultService.retrieve_or_raise_by_session_state_id
      VaultRepository.retrieve_or_raise_by_session_state_id
    rw [h]
    rfl
  · intro e token iv h1 h2 h3
    unfold VaultService.retrieve_or_raise_by_session_state_id
      VaultRepository.retrieve_or_raise_by_session_state_id
    rw [h1]
    simp [raise_if_not_found_guard, invariant_guard, h2, h3,
      EncryptionService.decrypt_token, EncryptionService.encrypt_token]

/-- C5 (witness): the amended theorem applied to the empty vault (absence)
and to a vault whose sole row matches session 9 (hit). -/
theorem C5_retrieve_or_raise_behavior_witness :
    VaultService.retrieve_or_raise_by_session_state_id svcW emptyDB 5 none
      = .error (.auth (DatabaseErrorWithCode
          "No token found for the session/type requested" "entity_not_found")) ∧
    VaultService.retrieve_or_raise_by_session_state_id svcW dbRefresh9 9 none
      = .ok (rowRefresh9, 5) :=
  ⟨(C5_retrieve_or_raise_behavior svcW emptyDB 5 none).1 rfl,
   (C5_retrieve_or_raise_behavior svcW dbRefresh9 9 none).2 rowRefresh9 5 3 rfl rfl rfl⟩

/-- C6: the ack-state round trip returns exactly {user, session} for every
parse time (the parser ignores expiry by design, so parsing after
`now + ttl` still succeeds); a token signed under a different secret fails
with the InvalidStateToken kind, as does a token whose payload was mutated
while keeping the original signature, and a properly signed token missing
the required `user_id` claim. -/
theorem C6_state_token_round_trip
    (secret secret2 U S ttl now parse_time : Nat) (p2 : JwtPayload) :
    (AcknowledgementKeycloakStateService.parse_ack_state ⟨secret⟩
        (AcknowledgementKeycloakStateService.make_ack_state ⟨secret⟩ U S ttl now)
        parse_time
      = .ok ⟨U, S⟩) ∧
    (secret2 ≠ secret →
      errClass (AcknowledgementKeycloakStateService.parse_ack_state ⟨secret2⟩
          (AcknowledgementKeycloakStateService.make_ack_state ⟨secret⟩ U S ttl now)
          parse_time)
        = some ErrCls.invalidStateToken) ∧
    (p2 ≠ ⟨some U, some S, some (now + ttl), some now⟩ →
      errClass (AcknowledgementKeycloakStateService.parse_ack_state ⟨secret⟩
          (⟨p2, "HS256", (secret, ⟨some U, some S, some (now + ttl), some now⟩)⟩ : Jwt)
          parse_time)
        = some ErrCls.invalidStateToken) ∧
    (errClass (AcknowledgementKeycloakStateService.parse_ack_state ⟨secret⟩
        (jwtEncode ⟨none, some S, some (now + ttl), some now⟩ secret) parse_time)
      = some ErrCls.invalidStateToken) := by
  refine ⟨?_, ?_, ?_, ?_⟩
  · simp [AcknowledgementKeycloakStateService.parse_ack_state,
      AcknowledgementKeycloakStateService.make_ack_state, jwtEncode]
  · intro h
    simp [AcknowledgementKeycloakStateService.parse_ack_state,
      AcknowledgementKeycloakStateService.make_ack_state, jwtEncode,
      Prod.ext_iff, h, errClass, Ne.symm h, InvalidStateTokenError, mkErr]
  · intro h
    simp [AcknowledgementKeycloakStateService.parse_ack_state,
      Prod.ext_iff, Ne.symm h, errClass, InvalidStateTokenError, mkErr]
  · simp [AcknowledgementKeycloakStateService.parse_ack_state, jwtEncode, errClass,
      InvalidStateTokenError, mkErr]

/-- C6 (witness): the round-trip theorem applied at secret 0, user 2,
session 3, ttl 10, issue time 5 and parse time 100 (well past expiry 15),
with wrong secret 1 and a mutated payload as the failure inputs. -/
theorem C6_state_token_round_trip_witness :
    (AcknowledgementKeycloakStateService.parse_ack_state ⟨0⟩
        (AcknowledgementKeycloakStateService.make_ack_state ⟨0⟩ 2 3 10 5) 100
      = .ok ⟨2, 3⟩) ∧
    (errClass (AcknowledgementKeycloakStateService.parse_ack_state ⟨1⟩
        (AcknowledgementKeycloakStateService.make_ack_state ⟨0⟩ 2 3 10 5) 100)
      = some ErrCls.invalidStateToken) ∧
    (errClass (AcknowledgementKeycloakStateService.parse_ack_state ⟨0⟩
        (⟨⟨some 99, some 3, some 15, some 5⟩, "HS256",
          (0, ⟨some 2, some 3, some (5 + 10), some 5⟩)⟩ : Jwt) 100)
      = some ErrCls.invalidStateToken) ∧
    (errClass (AcknowledgementKeycloakStateService.parse_ack_state ⟨0⟩
        (jwtEncode ⟨none, some 3, some (5 + 10), some 5⟩ 0) 100)
      = some ErrCls.invalidStateToken) :=
  ⟨(C6_state_token_round_trip 0 1 2 3 10 5 100 ⟨some 99, some 3, some 15, some 5⟩).1,
   (C6_state_token_round_trip 0 1 2 3 10 5 100 ⟨some 99, some 3, some 15, some 5⟩).2.1
     (by decide),
   (C6_state_token_round_trip 0 1 2 3 10 5 100 ⟨some 99, some 3, some 15, some 5⟩).2.2.1
     (by decide),
   (C6_state_token_round_trip 0 1 2 3 10 5 100 ⟨some 99, some 3, some 15, some 5⟩).2.2.2⟩

/-- Filtering commutes with mapping a function that does not change the
predicate (the UPDATE of the upsert touches neither `user_id` nor
`token_type`). -/
theorem filter_map_pred_comm {α : Type} (f : α → α) (p : α → Bool)
    (h : ∀ a, p (f a) = p a) :
    ∀ l : List α, (l.map f).filter p = (l.filter p).map f := by
  intro l
  induction l with
  | nil => rfl
  | cons a l ih =>
      cases hp : p a
      · simp [List.filter_cons, h, hp, ih]
      · simp [List.filter_cons, h, hp, ih]

/-- One successful repository upsert leaves exactly one REFRESH row for the
user, holding exactly the supplied field values. -/
theorem upsert_refresh_token_single_row (db : DB) (user_id : Nat)
    (encrypted_token : Cipher) (iv token_hash session_state_id : Nat)
    (attributes : Option (List (String × Nat))) (tid : Nat) (db2 : DB)
    (h : VaultRepository.upsert_refresh_token db user_id encrypted_token iv
        token_hash session_state_id attributes = .ok (tid, db2)) :
    ∃ r : VaultRow,
      db2.rows.filter (fun x => x.user_id == user_id
          && matchesType (some TokenType.refresh) x) = [r] ∧
      r.encrypted_token = some encrypted_token ∧ r.iv = some iv ∧
      r.token_hash = some token_hash ∧ r.session_state_id = session_state_id ∧
      r.attributes = attributes := by
  unfold VaultRepository.upsert_refresh_token VaultRepository.retrieve_by_user_id at h
  cases hf : db.rows.filter (fun x => x.user_id == user_id
      && matchesType (some TokenType.refresh) x) with
  | nil =>
      rw [hf] at h
      unfold VaultRepository.create at h
      simp only [Except.ok.injEq, Prod.mk.injEq] at h
      refine ⟨⟨db.nextId, user_id, TokenType.refresh, some encrypted_token, some iv,
        some token_hash, attributes, session_state_id, db.now, none⟩, ?_, rfl, rfl, rfl, rfl, rfl⟩
      rw [← h.2]
      show (db.rows ++ [_]).filter _ = [_]
      rw [List.filter_append, hf]
      simp [List.filter_cons, matchesType]
  | cons ex tl =>
      cases tl with
      | nil =>
          rw [hf] at h
          simp only [Except.ok.injEq, Prod.mk.injEq] at h
          refine ⟨VaultRepository.updateValues encrypted_token iv token_hash
            session_state_id attributes db.now ex, ?_, rfl, rfl, rfl, rfl, rfl⟩
          rw [← h.2]
          have hpred : ∀ r : VaultRow,
              (fun x : VaultRow => x.user_id == user_id && matchesType (some TokenType.refresh) x)
                  (if r.id == ex.id then VaultRepository.updateValues encrypted_token iv
                    token_hash session_state_id attributes db.now r else r)
                = (fun x : VaultRow => x.user_id == user_id
                    && matchesType (some TokenType.refresh) x) r := by
            intro r
            cases hid : r.id == ex.id <;>
              simp [hid, VaultRepository.updateValues, matchesType]
          show (db.rows.map _).filter _ = _
          rw [filter_map_pred_comm _ _ hpred, hf]
          simp
      | cons ex2 tl2 =>
          rw [hf] at h
          simp at h

/-- C1: after any nonempty sequence of successful `upsert_refresh_token`
calls for user U — each call record carrying its arguments plus the IV drawn
inside the call — exactly one REFRESH row exists for U, and its
encrypted_token, iv, token_hash, session_state_id and attributes are exactly
the values derived from the arguments of the last call. -/
theorem C1_upsert_last_call_wins (svc : VaultService) (user_id : Nat)
    (calls : List UpsertCall) (c : UpsertCall) :
    ∀ db db2 : DB, runUpserts svc user_id db (calls ++ [c]) = .ok db2 →
    ∃ r : VaultRow,
      db2.rows.filter (fun x => x.user_id == user_id
          && matchesType (some TokenType.refresh) x) = [r] ∧
      r.encrypted_token = some (svc.encryption.encrypt_token c.token c.iv) ∧
      r.iv = some c.iv ∧
      r.token_hash = some (svc.encryption.hash_token c.token) ∧
      r.session_state_id = c.session_state_id ∧
      r.attributes = c.attributes := by
  induction calls with
  | nil =>
      intro db db2 h
      rw [List.nil_append] at h
      unfold runUpserts at h
      cases hu : VaultService.upsert_refresh_token svc db user_id c.token
          c.session_state_id c.attributes c.iv with
      | error e => rw [hu] at h; simp at h
      | ok idDb =>
          rw [hu] at h
          unfold runUpserts at h
          simp only [Except.ok.injEq] at h
          rw [← h]
          exact upsert_refresh_token_single_row db user_id _ _ _ _ _ idDb.1 idDb.2 hu
  | cons c0 cs ih =>
      intro db db2 h
      rw [List.cons_append] at h
      unfold runUpserts at h
      cases hu : VaultService.upsert_refresh_token svc db user_id c0.token
          c0.session_state_id c0.attributes c0.iv with
      | error e => rw [hu] at h; simp at h
      | ok idDb => rw [hu] at h; exact ih idDb.2 db2 h

/-- C1 (witness): two concrete upsert calls for user 1 starting from the
empty vault; the theorem applied at the resulting state. -/
theorem C1_upsert_last_call_wins_witness :
    ∃ r : VaultRow,
      (DB.mk [⟨0, 1, .refresh, some ⟨0, 4, 7⟩, some 4, some (Nat.pair 7 0),
          none, 11, 0, some 1⟩] 1 2).rows.filter
          (fun x => x.user_id == 1 && matchesType (some TokenType.refresh) x) = [r] ∧
      r.encrypted_token = some (svcW.encryption.encrypt_token 7 4) ∧
      r.iv = some 4 ∧
      r.token_hash = some (svcW.encryption.hash_token 7) ∧
      r.session_state_id = 11 ∧
      r.attributes = none :=
  C1_upsert_last_call_wins svcW 1 [⟨5, 9, none, 3⟩] ⟨7, 11, none, 4⟩ emptyDB
    ⟨[⟨0, 1, .refresh, some ⟨0, 4, 7⟩, some 4, some (Nat.pair 7 0),
        none, 11, 0, some 1⟩], 1, 2⟩ rfl

/-- `any` over a filtered list is `any` of the conjunction. -/
theorem any_filter_aux {α : Type} (p q : α → Bool) :
    ∀ l : List α, (l.filter p).any q = l.any (fun a => p a && q a) := by
  intro l
  induction l with
  | nil => rfl
  | cons a l ih => cases hp : p a <;> simp [List.filter_cons, hp, ih]

/-- `len(filtered) > 0` is `any` of the filter predicate. -/
theorem decide_length_pos_eq_any {α : Type} (p : α → Bool) :
    ∀ l : List α, decide (0 < (l.filter p).length) = l.any p := by
  intro l
  induction l with
  | nil => rfl
  | cons a l ih => cases hp : p a <;> simp [List.filter_cons, hp, ih]

/-- The shared-session census, spelled out: some row other than the excluded
id carries the session with OFFLINE type. -/
theorem check_shared_token_spec (svc : VaultService) (db : DB) (sid ex : Nat) :
    VaultService.check_shared_token svc db sid ex (some TokenType.offline)
      = db.rows.any (fun r => !(r.id == ex)
          && (r.session_state_id == sid && r.token_type == TokenType.offline)) := by
  unfold VaultService.check_shared_token VaultRepository.get_all_by_session_state_id
  rw [decide_length_pos_eq_any, any_filter_aux, any_filter_aux]
  congr 1
  funext r
  cases hx : r.id == ex <;> cases hy : r.session_state_id == sid <;>
    simp [hx, hy, matchesType]

/-- A unique row holding material encrypted under the service key is
retrieved and decrypted back to its plaintext. -/
theorem retrieve_and_decrypt_spec (svc : VaultService) (db : DB)
    (token_id token iv : Nat) (e : VaultRow)
    (h1 : db.rows.filter (fun r => r.id == token_id) = [e])
    (h2 : e.encrypted_token = some (svc.encryption.encrypt_token token iv))
    (h3 : e.iv = some iv) :
    svc.retrieve_and_decrypt db token_id = .ok (e, token) := by
  unfold VaultService.retrieve_and_decrypt VaultRepository.retrieve
  rw [h1]
  simp [raise_if_not_found_guard, invariant_guard, h2, h3,
    EncryptionService.decrypt_token, EncryptionService.encrypt_token]

/-- C2: revoking an existing, decryptable entry E (upstream revocation
succeeding when attempted) deletes exactly the row of E; the upstream session is
revoked — the `revokeSession` event appears — if and only if no other
OFFLINE entry (excluding E.id) carries the session of E after the deletion, and
when another such entry exists the trace stops at the deletion and the
response reports `had_shared_session = true`, `session_revoked = false`. -/
theorem C2_revocation_guard (svc : VaultService) (db : DB) (id token iv : Nat)
    (e : VaultRow)
    (h1 : db.rows.filter (fun r => r.id == id) = [e])
    (h2 : e.encrypted_token = some (svc.encryption.encrypt_token token iv))
    (h3 : e.iv = some iv) :
    (revoke_offline_token svc db id true).2.1.rows
        = db.rows.filter (fun r => !(r.id == e.id)) ∧
    (revoke_offline_token svc db id true).2.2
        = (if db.rows.any (fun r => !(r.id == e.id)
              && (r.session_state_id == e.session_state_id
              && r.token_type == TokenType.offline))
           then [Event.deleteRow e.id]
           else [Event.deleteRow e.id, Event.revokeSession e.session_state_id]) ∧
    (revoke_offline_token svc db id true).1
        = .ok ⟨"Offline token revoked successfully", e.id, true,
            !(db.rows.any (fun r => !(r.id == e.id)
              && (r.session_state_id == e.session_state_id
              && r.token_type == TokenType.offline))),
            db.rows.any (fun r => !(r.id == e.id)
              && (r.session_state_id == e.session_state_id
              && r.token_type == TokenType.offline))⟩ := by
  have hmem0 : e ∈ db.rows.filter (fun r => r.id == id) := by
    rw [h1]; exact List.mem_singleton_self e
  have hmem : e ∈ db.rows := List.mem_of_mem_filter hmem0
  have hdel : db.rows.any (fun r => r.id == e.id) = true :=
    List.any_eq_true.mpr ⟨e, hmem, by simp⟩
  have hr := retrieve_and_decrypt_spec svc db id token iv e h1 h2 h3
  have hcs := check_shared_token_spec svc
    { db with rows := db.rows.filter (fun r => !(r.id == e.id)) }
    e.session_state_id e.id
  rw [show ({ db with rows := db.rows.filter (fun r => !(r.id == e.id)) } : DB).rows
      = db.rows.filter (fun r => !(r.id == e.id)) from rfl, any_filter_aux] at hcs
  have hsimp : (fun r : VaultRow => (!(r.id == e.id)) && ((!(r.id == e.id))
      && (r.session_state_id == e.session_state_id && r.token_type == TokenType.offline)))
      = (fun r : VaultRow => (!(r.id == e.id))
          && (r.session_state_id == e.session_state_id
          && r.token_type == TokenType.offline)) := by
    funext r
    cases hx : r.id == e.id <;> simp [hx]
  rw [hsimp] at hcs
  unfold revoke_offline_token
  rw [hr]
  simp only [auth_error_guard, VaultService.delete_token, VaultRepository.delete]
  rw [hcs, hdel]
  cases hS : db.rows.any (fun r => !(r.id == e.id)
      && (r.session_state_id == e.session_state_id
      && r.token_type == TokenType.offline)) <;>
    simp [hS]

/-- C2 (witness): the revocation-guard theorem applied to a vault in which a
second OFFLINE entry shares session 9 with the revoked entry (id 0). -/
theorem C2_revocation_guard_witness :
    (revoke_offline_token svcW dbSharedOffline9 0 true).2.1.rows
        = dbSharedOffline9.rows.filter (fun r => !(r.id == rowOffline9.id)) ∧
    (revoke_offline_token svcW dbSharedOffline9 0 true).2.2
        = (if dbSharedOffline9.rows.any (fun r => !(r.id == rowOffline9.id)
              && (r.session_state_id == rowOffline9.session_state_id
              && r.token_type == TokenType.offline))
           then [Event.deleteRow rowOffline9.id]
           else [Event.deleteRow rowOffline9.id,
             Event.revokeSession rowOffline9.session_state_id]) ∧
    (revoke_offline_token svcW dbSharedOffline9 0 true).1
        = .ok ⟨"Offline token revoked successfully", rowOffline9.id, true,
            !(dbSharedOffline9.rows.any (fun r => !(r.id == rowOffline9.id)
              && (r.session_state_id == rowOffline9.session_state_id
              && r.token_type == TokenType.offline))),
            dbSharedOffline9.rows.any (fun r => !(r.id == rowOffline9.id)
              && (r.session_state_id == rowOffline9.session_state_id
              && r.token_type == TokenType.offline))⟩ :=
  C2_revocation_guard svcW dbSharedOffline9 0 5 3 rowOffline9 rfl rfl rfl

/-- C10: the row is deleted strictly before the shared-session census and
before any upstream revocation — the event trace is the deletion followed by
the revocation attempt — and when the upstream revocation fails the
operation surfaces the Keycloak error kind while the post-state still lacks
the deleted row: the state change is not rolled back. (The census itself
cannot fail in this model; per §5 the transaction scope, whose code —
`app/db/base.py` — is not under `src/`, is modelled from the spec as plain
deterministic release with no rollback-on-error.) -/
theorem C10_delete_not_rolled_back (svc : VaultService) (db : DB)
    (id token iv : Nat) (e : VaultRow)
    (h1 : db.rows.filter (fun r => r.id == id) = [e])
    (h2 : e.encrypted_token = some (svc.encryption.encrypt_token token iv))
    (h3 : e.iv = some iv)
    (hs : db.rows.any (fun r => !(r.id == e.id)
        && (r.session_state_id == e.session_state_id
        && r.token_type == TokenType.offline)) = false) :
    (revoke_offline_token svc db id false).2.2
        = [Event.deleteRow e.id, Event.revokeSession e.session_state_id] ∧
    (revoke_offline_token svc db id false).2.1.rows
        = db.rows.filter (fun r => !(r.id == e.id)) ∧
    errClass (revoke_offline_token svc db id false).1 = some ErrCls.keycloak := by
  have hr := retrieve_and_decrypt_spec svc db id token iv e h1 h2 h3
  have hcs := check_shared_token_spec svc
    { db with rows := db.rows.filter (fun r => !(r.id == e.id)) }
    e.session_state_id e.id
  rw [show ({ db with rows := db.rows.filter (fun r => !(r.id == e.id)) } : DB).rows
      = db.rows.filter (fun r => !(r.id == e.id)) from rfl, any_filter_aux] at hcs
  have hsimp : (fun r : VaultRow => (!(r.id == e.id)) && ((!(r.id == e.id))
      && (r.session_state_id == e.session_state_id && r.token_type == TokenType.offline)))
      = (fun r : VaultRow => (!(r.id == e.id))
          && (r.session_state_id == e.session_state_id
          && r.token_type == TokenType.offline)) := by
    funext r
    cases hx : r.id == e.id <;> simp [hx]
  rw [hsimp, hs] at hcs
  unfold revoke_offline_token
  rw [hr]
  simp only [auth_error_guard, VaultService.delete_token, VaultRepository.delete]
  rw [hcs]
  simp [errClass, KeycloakError, mkErr]

/-- C10 (witness): the theorem applied to a vault whose sole entry (id 0)
carries session 9, with the upstream revocation failing. -/
theorem C10_delete_not_rolled_back_witness :
    (revoke_offline_token svcW dbOffline9 0 false).2.2
        = [Event.deleteRow rowOffline9.id, Event.revokeSession rowOffline9.session_state_id] ∧
    (revoke_offline_token svcW dbOffline9 0 false).2.1.rows
        = dbOffline9.rows.filter (fun r => !(r.id == rowOffline9.id)) ∧
    errClass (revoke_offline_token svcW dbOffline9 0 false).1 = some ErrCls.keycloak :=
  C10_delete_not_rolled_back svcW dbOffline9 0 5 3 rowOffline9 rfl rfl rfl rfl
